import Mathlib

/-!
Shallow embedding of the RIPS validation engine (src/validador.py) and proofs
of the spec claims about it.

The embedding keeps the source's structure: validation primitives append
outcomes to an ordered ledger and return a pass/fail boolean; each record-type
validator fetches one record by key from the storage collaborator, runs its
check sequence, and returns (valid, records); the processor dispatches on the
record-type tag, rebuilds the verdict from the accumulated ledger, and writes
the export file when the verdict is accepted.  Python exceptions from the
storage layer are modelled with Except; the uncaught file write in process is
the only place an error escapes.
-/

/-- Models ValidationResultType: NOTIFICATION = "NOTIFICACION", REJECTION = "RECHAZO". -/
inductive ValidationResultType
| NOTIFICATION
| REJECTION
deriving DecidableEq

/-- Models the ValidationResult record (result_type, code, description, field, source). -/
structure ValidationResult where
  result_type : ValidationResultType
  code : String
  description : String
  field : String
  source : String
deriving DecidableEq

/-- Build a REJECTION outcome with the fixed source tag "RIPS" (the constructor defaults). -/
def rejection (code description field : String) : ValidationResult :=
  ⟨ValidationResultType.REJECTION, code, description, field, "RIPS"⟩

/-- Build a NOTIFICATION outcome with the fixed source tag "RIPS". -/
def notification (code description field : String) : ValidationResult :=
  ⟨ValidationResultType.NOTIFICATION, code, description, field, "RIPS"⟩

/-- Models a Python value read from a DataFrame cell: None, a string, a number
(floats modelled as rationals), or NaN. -/
inductive PyVal
| none
| str (s : String)
| num (q : Rat)
| nan
deriving DecidableEq

/-- Python truthiness: None is falsy, a string is truthy iff non-empty, a number
iff non-zero, NaN is truthy. -/
def truthy : PyVal → Bool
| PyVal.none => false
| PyVal.str s => !(decide (s = ""))
| PyVal.num q => !(decide (q = 0))
| PyVal.nan => true

/-- True exactly for the None value (models Python `value is None`). -/
def isNone : PyVal → Bool
| PyVal.none => true
| _ => false

/-- Models pandas.isna: true on None and NaN, false otherwise. -/
def isna : PyVal → Bool
| PyVal.none => true
| PyVal.nan => true
| _ => false

/-- Decimal-free rendering of a rational, modelling Python str() on a number
(the exact float rendering does not matter to any claim). -/
def ratStr (q : Rat) : String :=
  toString q.num ++ "/" ++ toString q.den

/-- Models Python str(value): identity on strings, "None" for None, "nan" for NaN. -/
def pyStr : PyVal → String
| PyVal.none => "None"
| PyVal.str s => s
| PyVal.num q => ratStr q
| PyVal.nan => "nan"

/-- Numeric content of a value (only ever used after the isna guard, on numbers). -/
def pyNum : PyVal → Rat
| PyVal.num q => q
| _ => 0

/-- Models Python str.strip(): drop leading and trailing whitespace. -/
def pyStrip (s : String) : String :=
  String.mk (((s.toList.dropWhile Char.isWhitespace).reverse.dropWhile Char.isWhitespace).reverse)

/-- Models Python `value in [list of string literals]`: only a string can equal
a string literal. -/
def pyvalInList (v : PyVal) (l : List String) : Bool :=
  match v with
  | PyVal.str s => decide (s ∈ l)
  | _ => false

/-- Models `pat in s` on lists of characters: l starts with pat. -/
def startsWithPat : List Char → List Char → Bool
| [], _ => true
| _ :: _, [] => false
| a :: pats, b :: l => a == b && startsWithPat pats l

/-- Substring occurrence test over lists of characters. -/
def hasSub (pat : List Char) : List Char → Bool
| [] => startsWithPat pat []
| b :: l => startsWithPat pat (b :: l) || hasSub pat l

/-- Models Python `sub in s` for strings. -/
def pyContains (s sub : String) : Bool :=
  hasSub sub.toList s.toList

/-- Models str.lower() (ASCII case folding suffices for the source's use). -/
def pyLower (s : String) : String :=
  String.mk (s.toList.map Char.toLower)

/-- Value of a decimal digit character. -/
def digitVal (c : Char) : Nat := c.toNat - '0'.toNat

/-- Gregorian leap-year test. -/
def isLeap (y : Nat) : Bool :=
  (y % 4 == 0 && y % 100 != 0) || (y % 400 == 0)

/-- Days in a month of the Gregorian calendar. -/
def daysInMonth (y m : Nat) : Nat :=
  if m == 2 then (if isLeap y then 29 else 28)
  else if m == 4 || m == 6 || m == 9 || m == 11 then 30
  else 31

/-- Models datetime.strptime(s, "%Y-%m-%d %H:%M:%S") on the canonical
zero-padded form: returns the (year, month, day, hour, minute, second) tuple
when the 19-character string parses and is a valid timestamp, and Option.none
(the ValueError case) otherwise. -/
def parseDateTime (s : String) : Option (Nat × Nat × Nat × Nat × Nat × Nat) :=
  match s.toList with
  | [y1, y2, y3, y4, c1, m1, m2, c2, d1, d2, c3, h1, h2, c4, n1, n2, c5, s1, s2] =>
    if ([y1, y2, y3, y4, m1, m2, d1, d2, h1, h2, n1, n2, s1, s2].all Char.isDigit
        && c1 == '-' && c2 == '-' && c3 == ' ' && c4 == ':' && c5 == ':') then
      let y := ((digitVal y1 * 10 + digitVal y2) * 10 + digitVal y3) * 10 + digitVal y4
      let mo := digitVal m1 * 10 + digitVal m2
      let d := digitVal d1 * 10 + digitVal d2
      let h := digitVal h1 * 10 + digitVal h2
      let mi := digitVal n1 * 10 + digitVal n2
      let se := digitVal s1 * 10 + digitVal s2
      if 1 ≤ mo ∧ mo ≤ 12 ∧ 1 ≤ d ∧ d ≤ daysInMonth y mo ∧ h ≤ 23 ∧ mi ≤ 59 ∧ se ≤ 59 then
        Option.some (y, mo, d, h, mi, se)
      else Option.none
    else Option.none
  | _ => Option.none

/-- Order-preserving key for parsed timestamps (lexicographic on the tuple). -/
def dtKey : Nat × Nat × Nat × Nat × Nat × Nat → Nat
| (y, mo, d, h, mi, se) => ((((y * 13 + mo) * 32 + d) * 24 + h) * 60 + mi) * 60 + se

/-- Message of the ValueError raised by strptime on a non-matching string. -/
def strptimeErr (s : String) : String :=
  "time data " ++ s ++ " does not match format %Y-%m-%d %H:%M:%S"

/-- The outcome ledger: the ordered self.results list of a validator instance. -/
abbrev Ledger := List ValidationResult

/-- Models RIPSValidator.catalogs: catalog name to list of valid codes, with
dict.get default []. -/
def catalogs (name : String) : List String :=
  if name = "CUPS" then ["890501", "890601"]
  else if name = "CIE10" then ["E119", "J459"]
  else if name = "ATC" then ["A10BA02"]
  else if name = "TIPO_DOCUMENTO" then ["CC", "TI", "CE", "PA"]
  else if name = "TIPO_NOTA" then ["SF", "RS"]
  else if name = "CONCEPTO_RECAUDO" then ["01", "02", "03"]
  else if name = "VIA_INGRESO" then ["01", "02", "03"]
  else if name = "CAUSA_EXTERNA" then ["01", "02", "15"]
  else if name = "TIPO_OS" then ["01", "02", "03"]
  else []

/-- Models RIPSValidator.validate_string: required (on the stripped value),
then max length, then pattern (on the unstripped str(value)); the first failing
check appends one REJECTION and returns false.  The regex argument is the
compiled match-at-start test of re.match. -/
def validate_string (results : Ledger) (value : PyVal) (field : String) (max_length : Nat)
    (required : Bool) (regex : Option (String → Bool)) : Ledger × Bool :=
  if required && (isNone value || decide (pyStrip (pyStr value) = "")) then
    (results ++ [rejection ("ERR_" ++ field ++ "_001")
      ("El campo " ++ field ++ " es obligatorio") field], false)
  else if truthy value && decide ((pyStr value).length > max_length) then
    (results ++ [rejection ("ERR_" ++ field ++ "_002")
      ("El campo " ++ field ++ " excede el tamaño máximo de " ++ toString max_length) field], false)
  else if truthy value && (match regex with
      | Option.some m => !(m (pyStr value))
      | Option.none => false) then
    (results ++ [rejection ("ERR_" ++ field ++ "_003")
      ("El campo " ++ field ++ " no cumple el formato esperado") field], false)
  else (results, true)

/-- The NOTIFICATION appended by validate_code on a catalog miss. -/
def catalogMiss (value : PyVal) (field catalog : String) : ValidationResult :=
  notification ("WARN_" ++ field ++ "_001")
    ("El código " ++ pyStr value ++ " en " ++ field ++ " no está en el catálogo " ++ catalog) field

/-- Models RIPSValidator.validate_code: a truthy value absent from the catalog
appends one NOTIFICATION and returns false; otherwise no outcome and true. -/
def validate_code (results : Ledger) (value : PyVal) (field catalog : String) : Ledger × Bool :=
  if truthy value && !(pyvalInList value (catalogs catalog)) then
    (results ++ [catalogMiss value field catalog], false)
  else (results, true)

/-- Models RIPSValidator.validate_date: required (stripped-empty) check, then
strptime format check; each failure appends one REJECTION and returns false. -/
def validate_date (results : Ledger) (value : PyVal) (field : String) (required : Bool) :
    Ledger × Bool :=
  if required && (isNone value || decide (pyStrip (pyStr value) = "")) then
    (results ++ [rejection ("ERR_" ++ field ++ "_001")
      ("El campo " ++ field ++ " es obligatorio") field], false)
  else if truthy value && (parseDateTime (pyStr value)).isNone then
    (results ++ [rejection ("ERR_" ++ field ++ "_004")
      ("El campo " ++ field ++ " no tiene un formato de fecha válido") field], false)
  else (results, true)

/-- Guard for the minimum bound of validate_number. -/
def belowMin (v : Rat) : Option Rat → Bool
| Option.some m => decide (v < m)
| Option.none => false

/-- Guard for the maximum bound of validate_number. -/
def aboveMax (v : Rat) : Option Rat → Bool
| Option.some m => decide (m < v)
| Option.none => false

/-- Models RIPSValidator.validate_number: None/NaN fails required, then the
inclusive minimum and maximum bounds; one REJECTION per failing call. -/
def validate_number (results : Ledger) (value : PyVal) (field : String)
    (min_value max_value : Option Rat) : Ledger × Bool :=
  if isNone value || isna value then
    (results ++ [rejection ("ERR_" ++ field ++ "_001")
      ("El campo " ++ field ++ " es obligatorio") field], false)
  else if belowMin (pyNum value) min_value then
    (results ++ [rejection ("ERR_" ++ field ++ "_005")
      ("El campo " ++ field ++ " debe ser mayor o igual a " ++ ratStr (min_value.getD 0)) field], false)
  else if aboveMax (pyNum value) max_value then
    (results ++ [rejection ("ERR_" ++ field ++ "_006")
      ("El campo " ++ field ++ " debe ser menor o igual a " ++ ratStr (max_value.getD 0)) field], false)
  else (results, true)

/-- A fetched row: attribute values addressed by column name. -/
abbrev Record := String → PyVal

/-- The storage and export collaborators.  fetch models the keyed
pd.read_sql SELECT on a table (error = a raised exception), countUsuarios the
COUNT(*) cross-reference query, and writeFile the open/json.dump export. -/
structure Env where
  fetch : String → String → Except String (List Record)
  countUsuarios : PyVal → Except String Nat
  writeFile : String → List Record → Except String Unit

/-- One field-level check in a validator's sequence: it consumes the ledger
and yields the updated ledger and its pass/fail boolean. -/
abbrev Check := Ledger → Ledger × Bool

/-- Sequential execution of the `valid &= check(...)` lines: every check runs
(Python's &= does not short-circuit) and the booleans are folded with AND. -/
def runChecks (results : Ledger) (valid : Bool) : List Check → Ledger × Bool
| [] => (results, valid)
| c :: cs =>
  let p := c results
  runChecks p.1 (valid && p.2) cs

/-- The shared trailing cross-reference against Usuarios (the COUNT(*) query):
zero rows appends the validator-specific "user does not exist" REJECTION and
forces valid = False; a query error is re-raised into the validator's catch-all,
which appends the validator-specific "query error" REJECTION and returns
(False, []). -/
def finishWithCrossRef (env : Env) (df : List Record) (record : Record)
    (errCode catchCode : String) (p : Ledger × Bool) : Ledger × Bool × List Record :=
  match env.countUsuarios (record "numDocumentoIdentificacion") with
  | Except.error e =>
    (p.1 ++ [rejection catchCode ("Error en la consulta: " ++ e) ""], false, [])
  | Except.ok n =>
    if n == 0 then
      (p.1 ++ [rejection errCode
        ("El usuario " ++ pyStr (record "numDocumentoIdentificacion") ++ " no existe en Usuarios")
        "numDocumentoIdentificacion"], false, df)
    else (p.1, p.2, df)

/-- The field checks of TransaccionesValidator.validate, in source order. -/
def TransaccionesValidator.checks (record : Record) : List Check := [
  fun r => validate_string r (record "codPrestador") "codPrestador" 12 true Option.none,
  fun r => validate_string r (record "numDocumentoIdObligado") "numDocumentoIdObligado" 20 true Option.none,
  fun r => validate_string r (record "numFactura") "numFactura" 20 false Option.none,
  fun r => validate_string r (record "tipoNota") "tipoNota" 2 false Option.none,
  fun r => validate_string r (record "numNota") "numNota" 20 false Option.none,
  fun r =>
    if truthy (record "tipoNota") then
      let q := validate_code r (record "tipoNota") "tipoNota" "TIPO_NOTA"
      if decide (record "tipoNota" = PyVal.str "RS") && isna (record "numFactura") then
        (q.1 ++ [notification "INFO_AF_001" "RIPS sin factura permitido con tipoNota RS" "tipoNota"], q.2)
      else q
    else (r, true)]

/-- Models TransaccionesValidator.validate (type tag AF). -/
def TransaccionesValidator.validate (env : Env) (results : Ledger) (consecutivo : String) :
    Ledger × Bool × List Record :=
  match env.fetch "Transacciones" consecutivo with
  | Except.error e =>
    (results ++ [rejection "ERR_AF_002" ("Error en la consulta: " ++ e) ""], false, [])
  | Except.ok [] =>
    (results ++ [rejection "ERR_AF_001"
      ("No se encontró transacción con consecutivo " ++ consecutivo) ""], false, [])
  | Except.ok (record :: rest) =>
    let p := runChecks results true (TransaccionesValidator.checks record)
    (p.1, p.2, record :: rest)

/-- The field checks of UsuariosValidator.validate, in source order. -/
def UsuariosValidator.checks (record : Record) : List Check := [
  fun r => validate_string r (record "tipoDocumentoIdentificacion") "tipoDocumentoIdentificacion" 2 true Option.none,
  fun r => validate_string r (record "numDocumentoIdentificacion") "numDocumentoIdentificacion" 20 true Option.none,
  fun r => validate_string r (record "codPaisOrigen") "codPaisOrigen" 3 true Option.none,
  fun r => validate_code r (record "tipoDocumentoIdentificacion") "tipoDocumentoIdentificacion" "TIPO_DOCUMENTO"]

/-- Models UsuariosValidator.validate (type tag US). -/
def UsuariosValidator.validate (env : Env) (results : Ledger) (consecutivo : String) :
    Ledger × Bool × List Record :=
  match env.fetch "Usuarios" consecutivo with
  | Except.error e =>
    (results ++ [rejection "ERR_US_002" ("Error en la consulta: " ++ e) ""], false, [])
  | Except.ok [] =>
    (results ++ [rejection "ERR_US_001"
      ("No se encontró usuario con ID " ++ consecutivo) ""], false, [])
  | Except.ok (record :: rest) =>
    let p := runChecks results true (UsuariosValidator.checks record)
    (p.1, p.2, record :: rest)

/-- The copay cross-field rule of ConsultasValidator: designated CUPS code with
conceptoRecaudo "01" appends the INFO_AC_001 NOTIFICATION; any other code with
conceptoRecaudo "01" appends the ERR_AC_002 REJECTION and forces valid = False. -/
def copayCheck (results : Ledger) (codConsulta conceptoRecaudo : PyVal) : Ledger × Bool :=
  if pyvalInList codConsulta ["890501", "890601"] && decide (conceptoRecaudo = PyVal.str "01") then
    (results ++ [notification "INFO_AC_001" "Copago permitido para CUPS 8905/8906" "conceptoRecaudo"], true)
  else if decide (conceptoRecaudo = PyVal.str "01") && !(pyvalInList codConsulta ["890501", "890601"]) then
    (results ++ [rejection "ERR_AC_002" "Copago no permitido para este CUPS" "conceptoRecaudo"], false)
  else (results, true)

/-- The guarded CUPS catalog check plus copay rule of ConsultasValidator. -/
def consultaCupsCheck (record : Record) : Check := fun r =>
  if truthy (record "codConsulta") then
    let q := validate_code r (record "codConsulta") "codConsulta" "CUPS"
    let c := copayCheck q.1 (record "codConsulta") (record "conceptoRecaudo")
    (c.1, q.2 && c.2)
  else (r, true)

/-- The field checks of ConsultasValidator.validate, in source order. -/
def ConsultasValidator.checks (record : Record) : List Check := [
  fun r => validate_string r (record "codPrestador") "codPrestador" 12 true Option.none,
  fun r => validate_string r (record "numDocumentoIdentificacion") "numDocumentoIdentificacion" 20 true Option.none,
  fun r => validate_date r (record "fechaConsulta") "fechaConsulta" true,
  fun r => validate_string r (record "codConsulta") "codConsulta" 6 true Option.none,
  fun r => validate_string r (record "codDiagnosticoPrincipal") "codDiagnosticoPrincipal" 25 true Option.none,
  fun r => validate_string r (record "conceptoRecaudo") "conceptoRecaudo" 2 false Option.none,
  consultaCupsCheck record,
  fun r =>
    if truthy (record "codDiagnosticoPrincipal") then
      validate_code r (record "codDiagnosticoPrincipal") "codDiagnosticoPrincipal" "CIE10"
    else (r, true)]

/-- Models ConsultasValidator.validate (type tag AC). -/
def ConsultasValidator.validate (env : Env) (results : Ledger) (consecutivo : String) :
    Ledger × Bool × List Record :=
  match env.fetch "Consultas" consecutivo with
  | Except.error e =>
    (results ++ [rejection "ERR_AC_004" ("Error en la consulta: " ++ e) ""], false, [])
  | Except.ok [] =>
    (results ++ [rejection "ERR_AC_001"
      ("No se encontró consulta con consecutivo " ++ consecutivo) ""], false, [])
  | Except.ok (record :: rest) =>
    let p := runChecks results true (ConsultasValidator.checks record)
    finishWithCrossRef env (record :: rest) record "ERR_AC_003" "ERR_AC_004" p

/-- The field checks of ProcedimientosValidator.validate, in source order. -/
def ProcedimientosValidator.checks (record : Record) : List Check := [
  fun r => validate_string r (record "codPrestador") "codPrestador" 12 true Option.none,
  fun r => validate_string r (record "numDocumentoIdentificacion") "numDocumentoIdentificacion" 20 true Option.none,
  fun r => validate_date r (record "fechaInicioAtencion") "fechaInicioAtencion" true,
  fun r => validate_string r (record "numAutorizacion") "numAutorizacion" 30 false Option.none,
  fun r => validate_string r (record "codProcedimiento") "codProcedimiento" 6 true Option.none,
  fun r => validate_string r (record "viaIngreso") "viaIngreso" 2 true Option.none,
  fun r => validate_code r (record "codProcedimiento") "codProcedimiento" "CUPS",
  fun r => validate_code r (record "viaIngreso") "viaIngreso" "VIA_INGRESO",
  fun r =>
    if isna (record "numAutorizacion") then
      (r ++ [notification "INFO_AP_001" "Autorización no requerida para este procedimiento" "numAutorizacion"], true)
    else (r, true)]

/-- Models ProcedimientosValidator.validate (type tag AP). -/
def ProcedimientosValidator.validate (env : Env) (results : Ledger) (consecutivo : String) :
    Ledger × Bool × List Record :=
  match env.fetch "Procedimientos" consecutivo with
  | Except.error e =>
    (results ++ [rejection "ERR_AP_003" ("Error en la consulta: " ++ e) ""], false, [])
  | Except.ok [] =>
    (results ++ [rejection "ERR_AP_001"
      ("No se encontró procedimiento con consecutivo " ++ consecutivo) ""], false, [])
  | Except.ok (record :: rest) =>
    let p := runChecks results true (ProcedimientosValidator.checks record)
    finishWithCrossRef env (record :: rest) record "ERR_AP_002" "ERR_AP_003" p

/-- The field checks of UrgenciasValidator.validate, in source order. -/
def UrgenciasValidator.checks (record : Record) : List Check := [
  fun r => validate_string r (record "codPrestador") "codPrestador" 12 true Option.none,
  fun r => validate_string r (record "numDocumentoIdentificacion") "numDocumentoIdentificacion" 20 true Option.none,
  fun r => validate_date r (record "fechaInicioAtencion") "fechaInicioAtencion" true,
  fun r => validate_string r (record "causaExterna") "causaExterna" 2 true Option.none,
  fun r => validate_string r (record "codDiagnosticoPrincipal") "codDiagnosticoPrincipal" 25 true Option.none,
  fun r => validate_string r (record "condicionDestinoUsuarioEgreso") "condicionDestinoUsuarioEgreso" 2 true Option.none,
  fun r => validate_code r (record "causaExterna") "causaExterna" "CAUSA_EXTERNA",
  fun r => validate_code r (record "codDiagnosticoPrincipal") "codDiagnosticoPrincipal" "CIE10"]

/-- Models UrgenciasValidator.validate (type tag AU). -/
def UrgenciasValidator.validate (env : Env) (results : Ledger) (consecutivo : String) :
    Ledger × Bool × List Record :=
  match env.fetch "Urgencias" consecutivo with
  | Except.error e =>
    (results ++ [rejection "ERR_AU_003" ("Error en la consulta: " ++ e) ""], false, [])
  | Except.ok [] =>
    (results ++ [rejection "ERR_AU_001"
      ("No se encontró urgencia con consecutivo " ++ consecutivo) ""], false, [])
  | Except.ok (record :: rest) =>
    let p := runChecks results true (UrgenciasValidator.checks record)
    finishWithCrossRef env (record :: rest) record "ERR_AU_002" "ERR_AU_003" p

/-- The field checks of HospitalizacionValidator.validate, in source order. -/
def HospitalizacionValidator.checks (record : Record) : List Check := [
  fun r => validate_string r (record "codPrestador") "codPrestador" 12 true Option.none,
  fun r => validate_string r (record "numDocumentoIdentificacion") "numDocumentoIdentificacion" 20 true Option.none,
  fun r => validate_date r (record "fechaIngreso") "fechaIngreso" true,
  fun r => validate_string r (record "codDiagnosticoPrincipal") "codDiagnosticoPrincipal" 25 true Option.none,
  fun r => validate_date r (record "fechaEgreso") "fechaEgreso" true,
  fun r => validate_string r (record "codDiagnosticoCausaMuerte") "codDiagnosticoCausaMuerte" 25 false Option.none,
  fun r => validate_code r (record "codDiagnosticoPrincipal") "codDiagnosticoPrincipal" "CIE10",
  fun r =>
    if truthy (record "codDiagnosticoCausaMuerte") then
      validate_code r (record "codDiagnosticoCausaMuerte") "codDiagnosticoCausaMuerte" "CIE10"
    else (r, true)]

/-- Models HospitalizacionValidator.validate (type tag AH).  The cross-field
date comparison re-parses both dates with strptime outside any guard; a parse
failure there is the ValueError absorbed by the validator's catch-all, which
appends the ERR_AH_004 REJECTION and returns (False, []). -/
def HospitalizacionValidator.validate (env : Env) (results : Ledger) (consecutivo : String) :
    Ledger × Bool × List Record :=
  match env.fetch "Hospitalización" consecutivo with
  | Except.error e =>
    (results ++ [rejection "ERR_AH_004" ("Error en la consulta: " ++ e) ""], false, [])
  | Except.ok [] =>
    (results ++ [rejection "ERR_AH_001"
      ("No se encontró hospitalización con consecutivo " ++ consecutivo) ""], false, [])
  | Except.ok (record :: rest) =>
    let df := record :: rest
    let p := runChecks results true (HospitalizacionValidator.checks record)
    if truthy (record "fechaIngreso") && truthy (record "fechaEgreso") then
      match parseDateTime (pyStr (record "fechaIngreso")) with
      | Option.none =>
        (p.1 ++ [rejection "ERR_AH_004"
          ("Error en la consulta: " ++ strptimeErr (pyStr (record "fechaIngreso"))) ""], false, [])
      | Option.some fecha_ingreso =>
        match parseDateTime (pyStr (record "fechaEgreso")) with
        | Option.none =>
          (p.1 ++ [rejection "ERR_AH_004"
            ("Error en la consulta: " ++ strptimeErr (pyStr (record "fechaEgreso"))) ""], false, [])
        | Option.some fecha_egreso =>
          if dtKey fecha_egreso < dtKey fecha_ingreso then
            finishWithCrossRef env df record "ERR_AH_003" "ERR_AH_004"
              (p.1 ++ [rejection "ERR_AH_002"
                "La fecha de egreso no puede ser anterior a la fecha de ingreso" "fechaEgreso"], false)
          else
            finishWithCrossRef env df record "ERR_AH_003" "ERR_AH_004" p
    else
      finishWithCrossRef env df record "ERR_AH_003" "ERR_AH_004" p

/-- The field checks of RecienNacidoValidator.validate, in source order. -/
def RecienNacidoValidator.checks (record : Record) : List Check := [
  fun r => validate_string r (record "codPrestador") "codPrestador" 12 true Option.none,
  fun r => validate_string r (record "numDocumentoIdentificacion") "numDocumentoIdentificacion" 20 true Option.none,
  fun r => validate_date r (record "fechaNacimiento") "fechaNacimiento" true,
  fun r => validate_string r (record "sexoRecienNacido") "sexoRecienNacido" 1 true Option.none,
  fun r => validate_number r (record "pesoRecienNacido") "pesoRecienNacido" (Option.some (1/10)) Option.none,
  fun r =>
    if !(pyvalInList (record "sexoRecienNacido") ["M", "F"]) then
      (r ++ [rejection "ERR_AN_002" "El sexo del recién nacido debe ser M o F" "sexoRecienNacido"], false)
    else (r, true)]

/-- Models RecienNacidoValidator.validate (type tag AN). -/
def RecienNacidoValidator.validate (env : Env) (results : Ledger) (consecutivo : String) :
    Ledger × Bool × List Record :=
  match env.fetch "Recién_Nacido" consecutivo with
  | Except.error e =>
    (results ++ [rejection "ERR_AN_004" ("Error en la consulta: " ++ e) ""], false, [])
  | Except.ok [] =>
    (results ++ [rejection "ERR_AN_001"
      ("No se encontró recién nacido con consecutivo " ++ consecutivo) ""], false, [])
  | Except.ok (record :: rest) =>
    let p := runChecks results true (RecienNacidoValidator.checks record)
    finishWithCrossRef env (record :: rest) record "ERR_AN_003" "ERR_AN_004" p

/-- The field checks of MedicamentosValidator.validate, in source order. -/
def MedicamentosValidator.checks (record : Record) : List Check := [
  fun r => validate_string r (record "codPrestador") "codPrestador" 12 true Option.none,
  fun r => validate_string r (record "numDocumentoIdentificacion") "numDocumentoIdentificacion" 20 true Option.none,
  fun r => validate_string r (record "codTecnologiaSalud") "codTecnologiaSalud" 7 true Option.none,
  fun r => validate_string r (record "nomTecnologiaSalud") "nomTecnologiaSalud" 150 true Option.none,
  fun r => validate_string r (record "concentracionMedicamento") "concentracionMedicamento" 3 false Option.none,
  fun r => validate_string r (record "formaFarmaceutica") "formaFarmaceutica" 20 false Option.none,
  fun r =>
    if truthy (record "codTecnologiaSalud") then
      validate_code r (record "codTecnologiaSalud") "codTecnologiaSalud" "ATC"
    else (r, true),
  fun r =>
    if truthy (record "nomTecnologiaSalud")
        && pyContains (pyLower (pyStr (record "nomTecnologiaSalud"))) "magistral" then
      let r1 := r ++ [notification "INFO_AM_001"
        "Preparación magistral detectada, se permite un solo principio activo" "nomTecnologiaSalud"]
      if truthy (record "concentracionMedicamento")
          && pyContains (pyStr (record "concentracionMedicamento")) "." then
        (r1 ++ [notification "WARN_AM_002"
          "Decimales en concentracionMedicamento no soportados aún (cambio pendiente)"
          "concentracionMedicamento"], true)
      else (r1, true)
    else (r, true)]

/-- Models MedicamentosValidator.validate (type tag AM). -/
def MedicamentosValidator.validate (env : Env) (results : Ledger) (consecutivo : String) :
    Ledger × Bool × List Record :=
  match env.fetch "Medicamentos" consecutivo with
  | Except.error e =>
    (results ++ [rejection "ERR_AM_004" ("Error en la consulta: " ++ e) ""], false, [])
  | Except.ok [] =>
    (results ++ [rejection "ERR_AM_001"
      ("No se encontró medicamento con consecutivo " ++ consecutivo) ""], false, [])
  | Except.ok (record :: rest) =>
    let p := runChecks results true (MedicamentosValidator.checks record)
    finishWithCrossRef env (record :: rest) record "ERR_AM_003" "ERR_AM_004" p

/-- The field checks of OtrosServiciosValidator.validate, in source order. -/
def OtrosServiciosValidator.checks (record : Record) : List Check := [
  fun r => validate_string r (record "codPrestador") "codPrestador" 12 true Option.none,
  fun r => validate_string r (record "numDocumentoIdentificacion") "numDocumentoIdentificacion" 20 true Option.none,
  fun r => validate_string r (record "tipoOS") "tipoOS" 2 true Option.none,
  fun r => validate_string r (record "codTecnologiaSalud") "codTecnologiaSalud" 7 true Option.none,
  fun r => validate_number r (record "cantidadOS") "cantidadOS" (Option.some 1) Option.none,
  fun r => validate_code r (record "tipoOS") "tipoOS" "TIPO_OS"]

/-- Models OtrosServiciosValidator.validate (type tag AT). -/
def OtrosServiciosValidator.validate (env : Env) (results : Ledger) (consecutivo : String) :
    Ledger × Bool × List Record :=
  match env.fetch "Otros_Servicios" consecutivo with
  | Except.error e =>
    (results ++ [rejection "ERR_AT_003" ("Error en la consulta: " ++ e) ""], false, [])
  | Except.ok [] =>
    (results ++ [rejection "ERR_AT_001"
      ("No se encontró otro servicio con consecutivo " ++ consecutivo) ""], false, [])
  | Except.ok (record :: rest) =>
    let p := runChecks results true (OtrosServiciosValidator.checks record)
    finishWithCrossRef env (record :: rest) record "ERR_AT_002" "ERR_AT_003" p

/-- A serialized outcome dictionary as placed in the response
(ValidationResult.to_dict); the hardcoded unknown-type rejection dict omits the
Observaciones key, hence the Option. -/
structure ResultDict where
  Clase : String
  Codigo : String
  Descripcion : String
  Observaciones : Option String
  Fuente : String
deriving DecidableEq

/-- The string value of a classification (the Enum's .value). -/
def classStr : ValidationResultType → String
| ValidationResultType.NOTIFICATION => "NOTIFICACION"
| ValidationResultType.REJECTION => "RECHAZO"

/-- Models ValidationResult.to_dict. -/
def ValidationResult.to_dict (r : ValidationResult) : ResultDict :=
  ⟨classStr r.result_type, r.code, r.description, Option.some r.field, r.source⟩

/-- The caller-facing response of RIPSProcessor.process: Valid,
ValidationResults, JSONGenerated, and the JSONFile key when generated. -/
structure Response where
  Valid : Bool
  ValidationResults : List ResultDict
  JSONGenerated : Bool
  JSONFile : Option String

/-- The processor state: each registered validator instance's results ledger,
keyed by record-type tag (the ledgers live across process calls). -/
abbrev PState := String → Ledger

/-- Fresh processor: every validator starts with an empty ledger. -/
def initialState : PState := fun _ => []

/-- The fixed registry of record-type tags (the keys of self.validators). -/
def supportedTypes : List String := ["AF", "US", "AC", "AP", "AU", "AH", "AN", "AM", "AT"]

/-- Dispatch a supported tag to its validator (the dict lookup); the final
branch is unreachable for supported tags. -/
def runValidator (file_type : String) (env : Env) (results : Ledger) (consecutivo : String) :
    Ledger × Bool × List Record :=
  if file_type = "AF" then TransaccionesValidator.validate env results consecutivo
  else if file_type = "US" then UsuariosValidator.validate env results consecutivo
  else if file_type = "AC" then ConsultasValidator.validate env results consecutivo
  else if file_type = "AP" then ProcedimientosValidator.validate env results consecutivo
  else if file_type = "AU" then UrgenciasValidator.validate env results consecutivo
  else if file_type = "AH" then HospitalizacionValidator.validate env results consecutivo
  else if file_type = "AN" then RecienNacidoValidator.validate env results consecutivo
  else if file_type = "AM" then MedicamentosValidator.validate env results consecutivo
  else if file_type = "AT" then OtrosServiciosValidator.validate env results consecutivo
  else (results, false, [])

/-- The dispatcher's rejection scan over all accumulated outcomes. -/
def hasRejections (l : Ledger) : Bool :=
  l.any (fun r => decide (r.result_type = ValidationResultType.REJECTION))

/-- Models RIPSProcessor.process.  An unknown tag yields the hardcoded
ERR_GEN_001 rejection response without touching any validator or the storage
layer.  Otherwise the tag's validator runs on its accumulated ledger, the
verdict is the validator's boolean AND the absence of any REJECTION in the
ledger, and on an accepted verdict the records are written to the derived
export file — that write is not guarded by any try/except, so its failure
escapes as Except.error. -/
def RIPSProcessor.process (env : Env) (st : PState) (file_type consecutivo : String) :
    Except String (Response × PState) :=
  if supportedTypes.contains file_type then
    let out := runValidator file_type env (st file_type) consecutivo
    let st' : PState := fun x => if x = file_type then out.1 else st x
    let valid := out.2.1 && !(hasRejections out.1)
    if valid then
      let json_file := "rips_" ++ file_type ++ "_" ++ consecutivo ++ ".json"
      match env.writeFile json_file out.2.2 with
      | Except.error e => Except.error e
      | Except.ok _ =>
        Except.ok (⟨true, out.1.map ValidationResult.to_dict, true, Option.some json_file⟩, st')
    else
      Except.ok (⟨false, out.1.map ValidationResult.to_dict, false, Option.none⟩, st')
  else
    Except.ok (⟨false,
      [⟨"RECHAZO", "ERR_GEN_001", "Tipo de archivo " ++ file_type ++ " no soportado",
        Option.none, "RIPS"⟩], false, Option.none⟩, st)

/-- The type-specific table queried by each validator's keyed fetch. -/
def tableOf (ft : String) : String :=
  if ft = "AF" then "Transacciones"
  else if ft = "US" then "Usuarios"
  else if ft = "AC" then "Consultas"
  else if ft = "AP" then "Procedimientos"
  else if ft = "AU" then "Urgencias"
  else if ft = "AH" then "Hospitalización"
  else if ft = "AN" then "Recién_Nacido"
  else if ft = "AM" then "Medicamentos"
  else "Otros_Servicios"

/-- The type-specific "not found" REJECTION appended on a zero-row fetch. -/
def notFoundOutcome (ft key : String) : ValidationResult :=
  if ft = "AF" then rejection "ERR_AF_001" ("No se encontró transacción con consecutivo " ++ key) ""
  else if ft = "US" then rejection "ERR_US_001" ("No se encontró usuario con ID " ++ key) ""
  else if ft = "AC" then rejection "ERR_AC_001" ("No se encontró consulta con consecutivo " ++ key) ""
  else if ft = "AP" then rejection "ERR_AP_001" ("No se encontró procedimiento con consecutivo " ++ key) ""
  else if ft = "AU" then rejection "ERR_AU_001" ("No se encontró urgencia con consecutivo " ++ key) ""
  else if ft = "AH" then rejection "ERR_AH_001" ("No se encontró hospitalización con consecutivo " ++ key) ""
  else if ft = "AN" then rejection "ERR_AN_001" ("No se encontró recién nacido con consecutivo " ++ key) ""
  else if ft = "AM" then rejection "ERR_AM_001" ("No se encontró medicamento con consecutivo " ++ key) ""
  else rejection "ERR_AT_001" ("No se encontró otro servicio con consecutivo " ++ key) ""

lemma validate_string_mono (results : Ledger) (v : PyVal) (f : String) (m : Nat)
    (req : Bool) (g : Option (String → Bool)) :
    ∃ t, (validate_string results v f m req g).1 = results ++ t := by
  unfold validate_string
  split
  · exact ⟨_, rfl⟩
  split
  · exact ⟨_, rfl⟩
  split
  · exact ⟨_, rfl⟩
  · exact ⟨[], by simp⟩

lemma validate_code_mono (results : Ledger) (v : PyVal) (f c : String) :
    ∃ t, (validate_code results v f c).1 = results ++ t := by
  unfold validate_code
  split
  · exact ⟨_, rfl⟩
  · exact ⟨[], by simp⟩

lemma validate_date_mono (results : Ledger) (v : PyVal) (f : String) (req : Bool) :
    ∃ t, (validate_date results v f req).1 = results ++ t := by
  unfold validate_date
  split
  · exact ⟨_, rfl⟩
  split
  · exact ⟨_, rfl⟩
  · exact ⟨[], by simp⟩

lemma validate_number_mono (results : Ledger) (v : PyVal) (f : String) (mn mx : Option Rat) :
    ∃ t, (validate_number results v f mn mx).1 = results ++ t := by
  unfold validate_number
  split
  · exact ⟨_, rfl⟩
  split
  · exact ⟨_, rfl⟩
  split
  · exact ⟨_, rfl⟩
  · exact ⟨[], by simp⟩

lemma copayCheck_mono (results : Ledger) (cod cr : PyVal) :
    ∃ t, (copayCheck results cod cr).1 = results ++ t := by
  unfold copayCheck
  split
  · exact ⟨_, rfl⟩
  split
  · exact ⟨_, rfl⟩
  · exact ⟨[], by simp⟩

/-- A check is append-only: it never removes or reorders earlier outcomes. -/
def MonoCheck (c : Check) : Prop := ∀ r, ∃ t, (c r).1 = r ++ t

lemma runChecks_append (results : Ledger) (valid : Bool) (cs1 cs2 : List Check) :
    runChecks results valid (cs1 ++ cs2)
      = runChecks (runChecks results valid cs1).1 (runChecks results valid cs1).2 cs2 := by
  induction cs1 generalizing results valid with
  | nil => simp [runChecks]
  | cons c cs ih => simp [runChecks, ih]

lemma runChecks_mono (cs : List Check) (h : ∀ c ∈ cs, MonoCheck c) (results : Ledger)
    (valid : Bool) : ∃ t, (runChecks results valid cs).1 = results ++ t := by
  induction cs generalizing results valid with
  | nil => exact ⟨[], by simp [runChecks]⟩
  | cons c cs ih =>
    obtain ⟨t1, h1⟩ := h c (List.mem_cons_self c cs) results
    obtain ⟨t2, h2⟩ := ih (fun c' hc' => h c' (List.mem_cons_of_mem c hc')) (c results).1
      (valid && (c results).2)
    exact ⟨t1 ++ t2, by simp only [runChecks]; rw [h2, h1, List.append_assoc]⟩

lemma runChecks_false (cs : List Check) (results : Ledger) :
    (runChecks results false cs).2 = false := by
  induction cs generalizing results with
  | nil => simp [runChecks]
  | cons c cs ih => simp [runChecks, ih]

lemma finishWithCrossRef_mono (env : Env) (df : List Record) (record : Record)
    (e c : String) (p : Ledger × Bool) :
    ∃ t, (finishWithCrossRef env df record e c p).1 = p.1 ++ t := by
  unfold finishWithCrossRef
  rcases env.countUsuarios (record "numDocumentoIdentificacion") with err | n
  · exact ⟨_, rfl⟩
  · simp only []
    split
    · exact ⟨_, rfl⟩
    · exact ⟨[], by simp⟩

lemma finishWithCrossRef_false (env : Env) (df : List Record) (record : Record)
    (e c : String) (L : Ledger) :
    (finishWithCrossRef env df record e c (L, false)).2.1 = false := by
  unfold finishWithCrossRef
  rcases env.countUsuarios (record "numDocumentoIdentificacion") with err | n
  · rfl
  · simp only []
    split
    · rfl
    · rfl

lemma trivialCheck_mono : MonoCheck (fun r => (r, true)) :=
  fun r => ⟨[], by simp⟩

lemma af_checks_mono (record : Record) : ∀ c ∈ TransaccionesValidator.checks record, MonoCheck c := by
  intro c hc
  simp only [TransaccionesValidator.checks, List.mem_cons, List.not_mem_nil, or_false] at hc
  rcases hc with h | h | h | h | h | h <;> subst h
  · exact fun r => validate_string_mono r _ _ _ _ _
  · exact fun r => validate_string_mono r _ _ _ _ _
  · exact fun r => validate_string_mono r _ _ _ _ _
  · exact fun r => validate_string_mono r _ _ _ _ _
  · exact fun r => validate_string_mono r _ _ _ _ _
  · intro r
    dsimp only
    split
    · split
      · obtain ⟨t, ht⟩ := validate_code_mono r (record "tipoNota") "tipoNota" "TIPO_NOTA"
        exact ⟨t ++ [notification "INFO_AF_001" "RIPS sin factura permitido con tipoNota RS" "tipoNota"],
          by rw [ht, List.append_assoc]⟩
      · exact validate_code_mono r _ _ _
    · exact ⟨[], by simp⟩

lemma us_checks_mono (record : Record) : ∀ c ∈ UsuariosValidator.checks record, MonoCheck c := by
  intro c hc
  simp only [UsuariosValidator.checks, List.mem_cons, List.not_mem_nil, or_false] at hc
  rcases hc with h | h | h | h <;> subst h
  · exact fun r => validate_string_mono r _ _ _ _ _
  · exact fun r => validate_string_mono r _ _ _ _ _
  · exact fun r => validate_string_mono r _ _ _ _ _
  · exact fun r => validate_code_mono r _ _ _

lemma consultaCupsCheck_mono (record : Record) : MonoCheck (consultaCupsCheck record) := by
  intro r
  unfold consultaCupsCheck
  split
  · obtain ⟨t1, h1⟩ := validate_code_mono r (record "codConsulta") "codConsulta" "CUPS"
    obtain ⟨t2, h2⟩ := copayCheck_mono (validate_code r (record "codConsulta") "codConsulta" "CUPS").1
      (record "codConsulta") (record "conceptoRecaudo")
    exact ⟨t1 ++ t2, by simp only []; rw [h2, h1, List.append_assoc]⟩
  · exact ⟨[], by simp⟩

lemma ac_checks_mono (record : Record) : ∀ c ∈ ConsultasValidator.checks record, MonoCheck c := by
  intro c hc
  simp only [ConsultasValidator.checks, List.mem_cons, List.not_mem_nil, or_false] at hc
  rcases hc with h | h | h | h | h | h | h | h <;> subst h
  · exact fun r => validate_string_mono r _ _ _ _ _
  · exact fun r => validate_string_mono r _ _ _ _ _
  · exact fun r => validate_date_mono r _ _ _
  · exact fun r => validate_string_mono r _ _ _ _ _
  · exact fun r => validate_string_mono r _ _ _ _ _
  · exact fun r => validate_string_mono r _ _ _ _ _
  · exact consultaCupsCheck_mono record
  · intro r
    dsimp only
    split
    · exact validate_code_mono r _ _ _
    · exact ⟨[], by simp⟩

lemma ap_checks_mono (record : Record) : ∀ c ∈ ProcedimientosValidator.checks record, MonoCheck c := by
  intro c hc
  simp only [ProcedimientosValidator.checks, List.mem_cons, List.not_mem_nil, or_false] at hc
  rcases hc with h | h | h | h | h | h | h | h | h <;> subst h
  · exact fun r => validate_string_mono r _ _ _ _ _
  · exact fun r => validate_string_mono r _ _ _ _ _
  · exact fun r => validate_date_mono r _ _ _
  · exact fun r => validate_string_mono r _ _ _ _ _
  · exact fun r => validate_string_mono r _ _ _ _ _
  · exact fun r => validate_string_mono r _ _ _ _ _
  · exact fun r => validate_code_mono r _ _ _
  · exact fun r => validate_code_mono r _ _ _
  · intro r
    dsimp only
    split
    · exact ⟨_, rfl⟩
    · exact ⟨[], by simp⟩

lemma au_checks_mono (record : Record) : ∀ c ∈ UrgenciasValidator.checks record, MonoCheck c := by
  intro c hc
  simp only [UrgenciasValidator.checks, List.mem_cons, List.not_mem_nil, or_false] at hc
  rcases hc with h | h | h | h | h | h | h | h <;> subst h
  · exact fun r => validate_string_mono r _ _ _ _ _
  · exact fun r => validate_string_mono r _ _ _ _ _
  · exact fun r => validate_date_mono r _ _ _
  · exact fun r => validate_string_mono r _ _ _ _ _
  · exact fun r => validate_string_mono r _ _ _ _ _
  · exact fun r => validate_string_mono r _ _ _ _ _
  · exact fun r => validate_code_mono r _ _ _
  · exact fun r => validate_code_mono r _ _ _

lemma ah_checks_mono (record : Record) : ∀ c ∈ HospitalizacionValidator.checks record, MonoCheck c := by
  intro c hc
  simp only [HospitalizacionValidator.checks, List.mem_cons, List.not_mem_nil, or_false] at hc
  rcases hc with h | h | h | h | h | h | h | h <;> subst h
  · exact fun r => validate_string_mono r _ _ _ _ _
  · exact fun r => validate_string_mono r _ _ _ _ _
  · exact fun r => validate_date_mono r _ _ _
  · exact fun r => validate_string_mono r _ _ _ _ _
  · exact fun r => validate_date_mono r _ _ _
  · exact fun r => validate_string_mono r _ _ _ _ _
  · exact fun r => validate_code_mono r _ _ _
  · intro r
    dsimp only
    split
    · exact validate_code_mono r _ _ _
    · exact ⟨[], by simp⟩

lemma an_checks_mono (record : Record) : ∀ c ∈ RecienNacidoValidator.checks record, MonoCheck c := by
  intro c hc
  simp only [RecienNacidoValidator.checks, List.mem_cons, List.not_mem_nil, or_false] at hc
  rcases hc with h | h | h | h | h | h <;> subst h
  · exact fun r => validate_string_mono r _ _ _ _ _
  · exact fun r => validate_string_mono r _ _ _ _ _
  · exact fun r => validate_date_mono r _ _ _
  · exact fun r => validate_string_mono r _ _ _ _ _
  · exact fun r => validate_number_mono r _ _ _ _
  · intro r
    dsimp only
    split
    · exact ⟨_, rfl⟩
    · exact ⟨[], by simp⟩

lemma am_checks_mono (record : Record) : ∀ c ∈ MedicamentosValidator.checks record, MonoCheck c := by
  intro c hc
  simp only [MedicamentosValidator.checks, List.mem_cons, List.not_mem_nil, or_false] at hc
  rcases hc with h | h | h | h | h | h | h | h <;> subst h
  · exact fun r => validate_string_mono r _ _ _ _ _
  · exact fun r => validate_string_mono r _ _ _ _ _
  · exact fun r => validate_string_mono r _ _ _ _ _
  · exact fun r => validate_string_mono r _ _ _ _ _
  · exact fun r => validate_string_mono r _ _ _ _ _
  · exact fun r => validate_string_mono r _ _ _ _ _
  · intro r
    dsimp only
    split
    · exact validate_code_mono r _ _ _
    · exact ⟨[], by simp⟩
  · intro r
    dsimp only
    split
    · split
      · exact ⟨_, by rw [List.append_assoc]⟩
      · exact ⟨_, rfl⟩
    · exact ⟨[], by simp⟩

lemma at_checks_mono (record : Record) : ∀ c ∈ OtrosServiciosValidator.checks record, MonoCheck c := by
  intro c hc
  simp only [OtrosServiciosValidator.checks, List.mem_cons, List.not_mem_nil, or_false] at hc
  rcases hc with h | h | h | h | h | h <;> subst h
  · exact fun r => validate_string_mono r _ _ _ _ _
  · exact fun r => validate_string_mono r _ _ _ _ _
  · exact fun r => validate_string_mono r _ _ _ _ _
  · exact fun r => validate_string_mono r _ _ _ _ _
  · exact fun r => validate_number_mono r _ _ _ _
  · exact fun r => validate_code_mono r _ _ _

lemma af_mono (env : Env) (results : Ledger) (key : String) :
    ∃ t, (TransaccionesValidator.validate env results key).1 = results ++ t := by
  unfold TransaccionesValidator.validate
  rcases env.fetch "Transacciones" key with e | df
  · exact ⟨_, rfl⟩
  · cases df with
    | nil => exact ⟨_, rfl⟩
    | cons record rest => exact runChecks_mono _ (af_checks_mono record) results true

lemma us_mono (env : Env) (results : Ledger) (key : String) :
    ∃ t, (UsuariosValidator.validate env results key).1 = results ++ t := by
  unfold UsuariosValidator.validate
  rcases env.fetch "Usuarios" key with e | df
  · exact ⟨_, rfl⟩
  · cases df with
    | nil => exact ⟨_, rfl⟩
    | cons record rest => exact runChecks_mono _ (us_checks_mono record) results true

lemma finish_after_mono (env : Env) (df : List Record) (record : Record) (e c : String)
    (results : Ledger) (p : Ledger × Bool) (hp : ∃ t, p.1 = results ++ t) :
    ∃ t, (finishWithCrossRef env df record e c p).1 = results ++ t := by
  obtain ⟨t1, h1⟩ := hp
  obtain ⟨t2, h2⟩ := finishWithCrossRef_mono env df record e c p
  exact ⟨t1 ++ t2, by rw [h2, h1, List.append_assoc]⟩

lemma ac_mono (env : Env) (results : Ledger) (key : String) :
    ∃ t, (ConsultasValidator.validate env results key).1 = results ++ t := by
  unfold ConsultasValidator.validate
  rcases env.fetch "Consultas" key with e | df
  · exact ⟨_, rfl⟩
  · cases df with
    | nil => exact ⟨_, rfl⟩
    | cons record rest =>
      exact finish_after_mono env _ record _ _ results _
        (runChecks_mono _ (ac_checks_mono record) results true)

lemma ap_mono (env : Env) (results : Ledger) (key : String) :
    ∃ t, (ProcedimientosValidator.validate env results key).1 = results ++ t := by
  unfold ProcedimientosValidator.validate
  rcases env.fetch "Procedimientos" key with e | df
  · exact ⟨_, rfl⟩
  · cases df with
    | nil => exact ⟨_, rfl⟩
    | cons record rest =>
      exact finish_after_mono env _ record _ _ results _
        (runChecks_mono _ (ap_checks_mono record) results true)

lemma au_mono (env : Env) (results : Ledger) (key : String) :
    ∃ t, (UrgenciasValidator.validate env results key).1 = results ++ t := by
  unfold UrgenciasValidator.validate
  rcases env.fetch "Urgencias" key with e | df
  · exact ⟨_, rfl⟩
  · cases df with
    | nil => exact ⟨_, rfl⟩
    | cons record rest =>
      exact finish_after_mono env _ record _ _ results _
        (runChecks_mono _ (au_checks_mono record) results true)

lemma ah_mono (env : Env) (results : Ledger) (key : String) :
    ∃ t, (HospitalizacionValidator.validate env results key).1 = results ++ t := by
  unfold HospitalizacionValidator.validate
  rcases env.fetch "Hospitalización" key with e | df
  · exact ⟨_, rfl⟩
  · cases df with
    | nil => exact ⟨_, rfl⟩
    | cons record rest =>
      dsimp only
      have hp := runChecks_mono _ (ah_checks_mono record) results true
      obtain ⟨t0, h0⟩ := hp
      split
      · rcases parseDateTime (pyStr (record "fechaIngreso")) with _ | fi
        · exact ⟨t0 ++ _, by rw [h0, List.append_assoc]⟩
        · dsimp only
          rcases parseDateTime (pyStr (record "fechaEgreso")) with _ | fe
          · exact ⟨t0 ++ _, by rw [h0, List.append_assoc]⟩
          · dsimp only
            split
            · refine finish_after_mono env _ record _ _ results _ ?_
              exact ⟨t0 ++ _, by rw [h0, List.append_assoc]⟩
            · exact finish_after_mono env _ record _ _ results _ ⟨t0, h0⟩
      · exact finish_after_mono env _ record _ _ results _ ⟨t0, h0⟩

lemma an_mono (env : Env) (results : Ledger) (key : String) :
    ∃ t, (RecienNacidoValidator.validate env results key).1 = results ++ t := by
  unfold RecienNacidoValidator.validate
  rcases env.fetch "Recién_Nacido" key with e | df
  · exact ⟨_, rfl⟩
  · cases df with
    | nil => exact ⟨_, rfl⟩
    | cons record rest =>
      exact finish_after_mono env _ record _ _ results _
        (runChecks_mono _ (an_checks_mono record) results true)

lemma am_mono (env : Env) (results : Ledger) (key : String) :
    ∃ t, (MedicamentosValidator.validate env results key).1 = results ++ t := by
  unfold MedicamentosValidator.validate
  rcases env.fetch "Medicamentos" key with e | df
  · exact ⟨_, rfl⟩
  · cases df with
    | nil => exact ⟨_, rfl⟩
    | cons record rest =>
      exact finish_after_mono env _ record _ _ results _
        (runChecks_mono _ (am_checks_mono record) results true)

lemma at_mono (env : Env) (results : Ledger) (key : String) :
    ∃ t, (OtrosServiciosValidator.validate env results key).1 = results ++ t := by
  unfold OtrosServiciosValidator.validate
  rcases env.fetch "Otros_Servicios" key with e | df
  · exact ⟨_, rfl⟩
  · cases df with
    | nil => exact ⟨_, rfl⟩
    | cons record rest =>
      exact finish_after_mono env _ record _ _ results _
        (runChecks_mono _ (at_checks_mono record) results true)

lemma runValidator_mono (ft : String) (env : Env) (results : Ledger) (key : String) :
    ∃ t, (runValidator ft env results key).1 = results ++ t := by
  unfold runValidator
  split
  · exact af_mono env results key
  split
  · exact us_mono env results key
  split
  · exact ac_mono env results key
  split
  · exact ap_mono env results key
  split
  · exact au_mono env results key
  split
  · exact ah_mono env results key
  split
  · exact an_mono env results key
  split
  · exact am_mono env results key
  split
  · exact at_mono env results key
  · exact ⟨[], by simp⟩

lemma hasRejections_append (l1 l2 : Ledger) :
    hasRejections (l1 ++ l2) = (hasRejections l1 || hasRejections l2) := by
  simp [hasRejections, List.any_append]

lemma to_dict_rechazo (r : ValidationResult)
    (h : (ValidationResult.to_dict r).Clase = "RECHAZO") :
    r.result_type = ValidationResultType.REJECTION := by
  cases hr : r.result_type with
  | REJECTION => rfl
  | NOTIFICATION =>
    exfalso
    have : classStr r.result_type = "RECHAZO" := h
    rw [hr] at this
    exact absurd this (by decide)

lemma hasRejections_of_mem (l : Ledger) (r : ValidationResult) (hm : r ∈ l)
    (hr : r.result_type = ValidationResultType.REJECTION) : hasRejections l = true := by
  simp only [hasRejections, List.any_eq_true]
  exact ⟨r, hm, by simp [hr]⟩

/-- When the validator's outcome is already invalid, process returns the
rejecting response without attempting any export. -/
lemma process_of_invalid (env : Env) (st : PState) (ft key : String) (L : Ledger)
    (recs : List Record) (hft : supportedTypes.contains ft = true)
    (h : runValidator ft env (st ft) key = (L, false, recs)) :
    RIPSProcessor.process env st ft key
      = Except.ok (⟨false, L.map ValidationResult.to_dict, false, Option.none⟩,
          fun x => if x = ft then L else st x) := by
  have hmem : ft ∈ supportedTypes := by simpa using hft
  simp [RIPSProcessor.process, hmem, h]

/-- A seeded environment: every fetch yields zero rows, the cross-reference
count is 1, and the export write succeeds. -/
def env0 : Env := ⟨fun _ _ => Except.ok [], fun _ => Except.ok 1, fun _ _ => Except.ok ()⟩

/-- A failing storage layer: every operation raises. -/
def envErr : Env := ⟨fun _ _ => Except.error "boom", fun _ => Except.error "boom",
  fun _ _ => Except.error "boom"⟩

/-- C8: for every key, a process call with an unknown record-type tag returns
valid=false, exported=false with the single hardcoded ERR_GEN_001 Rejection
(its dict carries Clase "RECHAZO" and no Observaciones key), leaves the
processor state untouched, and its result is independent of the storage and
export environment — no validator is invoked and no storage access happens. -/
theorem unknown_type_rejection_response (env env' : Env) (st : PState) (ft key : String)
    (h : supportedTypes.contains ft = false) :
    RIPSProcessor.process env st ft key
      = Except.ok (⟨false, [⟨"RECHAZO", "ERR_GEN_001",
          "Tipo de archivo " ++ ft ++ " no soportado", Option.none, "RIPS"⟩],
          false, Option.none⟩, st)
    ∧ RIPSProcessor.process env st ft key = RIPSProcessor.process env' st ft key := by
  have hnm : ft ∉ supportedTypes := by simpa using h
  constructor <;> simp [RIPSProcessor.process, hnm]

theorem unknown_type_rejection_response_witness :
    RIPSProcessor.process env0 initialState "ZZ" "K"
      = Except.ok (⟨false, [⟨"RECHAZO", "ERR_GEN_001",
          "Tipo de archivo ZZ no soportado", Option.none, "RIPS"⟩],
          false, Option.none⟩, initialState)
    ∧ RIPSProcessor.process env0 initialState "ZZ" "K"
        = RIPSProcessor.process envErr initialState "ZZ" "K" :=
  unknown_type_rejection_response env0 envErr initialState "ZZ" "K" (by decide)

/-- C3: every successfully returned response satisfies the dispatcher
invariant — a RECHAZO anywhere among the serialized outcomes forces
valid=false and exported=false (even if the validator's own boolean was
true), and the export happened exactly when the response is valid. -/
theorem rejection_forces_invalid_and_export_iff_valid (env : Env) (st : PState)
    (ft key : String) (resp : Response) (st' : PState)
    (h : RIPSProcessor.process env st ft key = Except.ok (resp, st')) :
    ((∃ d ∈ resp.ValidationResults, d.Clase = "RECHAZO") →
        resp.Valid = false ∧ resp.JSONGenerated = false)
    ∧ resp.JSONGenerated = resp.Valid := by
  by_cases hmem : ft ∈ supportedTypes
  · simp only [RIPSProcessor.process] at h
    rw [if_pos (show supportedTypes.contains ft = true by simpa using hmem)] at h
    rcases hv : ((runValidator ft env (st ft) key).2.1
        && !(hasRejections (runValidator ft env (st ft) key).1)) with _ | _
    · rw [hv] at h
      simp only [Bool.false_eq_true, if_false, Except.ok.injEq, Prod.mk.injEq] at h
      obtain ⟨hresp, _⟩ := h
      subst hresp
      exact ⟨fun _ => ⟨rfl, rfl⟩, rfl⟩
    · rw [hv] at h
      rw [if_pos rfl] at h
      rcases hw : env.writeFile ("rips_" ++ ft ++ "_" ++ key ++ ".json")
          (runValidator ft env (st ft) key).2.2 with e | u
      · rw [hw] at h
        simp at h
      · rw [hw] at h
        simp only [Except.ok.injEq, Prod.mk.injEq] at h
        obtain ⟨hresp, _⟩ := h
        subst hresp
        refine ⟨?_, rfl⟩
        rintro ⟨d, hd, hclase⟩
        exfalso
        simp only [List.mem_map] at hd
        obtain ⟨r, hr, hdr⟩ := hd
        have hrej : r.result_type = ValidationResultType.REJECTION :=
          to_dict_rechazo r (by rw [← hdr] at hclase; exact hclase)
        have hhr : hasRejections (runValidator ft env (st ft) key).1 = true :=
          hasRejections_of_mem _ r hr hrej
        rw [hhr] at hv
        simp at hv
  · simp only [RIPSProcessor.process] at h
    rw [if_neg (show ¬ supportedTypes.contains ft = true by simpa using hmem)] at h
    simp only [Except.ok.injEq, Prod.mk.injEq] at h
    obtain ⟨hresp, _⟩ := h
    subst hresp
    exact ⟨fun _ => ⟨rfl, rfl⟩, rfl⟩

theorem rejection_forces_invalid_and_export_iff_valid_witness :
    ((∃ d ∈ [(⟨"RECHAZO", "ERR_GEN_001", "Tipo de archivo ZZ no soportado",
        Option.none, "RIPS"⟩ : ResultDict)], d.Clase = "RECHAZO") →
      (false : Bool) = false ∧ (false : Bool) = false)
    ∧ (false : Bool) = (false : Bool) :=
  rejection_forces_invalid_and_export_iff_valid env0 initialState "ZZ" "K"
    ⟨false, [⟨"RECHAZO", "ERR_GEN_001", "Tipo de archivo ZZ no soportado",
      Option.none, "RIPS"⟩], false, Option.none⟩ initialState rfl

/-- C10: once a validator's ledger holds a Rejection, every later process call
with the same tag returns valid=false and exported=false, whatever record is
validated — the ledger is never cleared and the dispatcher's verdict scans all
accumulated outcomes. -/
theorem rejection_ledger_sticky (env : Env) (st : PState) (ft key : String)
    (hft : supportedTypes.contains ft = true)
    (hrej : hasRejections (st ft) = true) :
    ∃ resp st', RIPSProcessor.process env st ft key = Except.ok (resp, st')
      ∧ resp.Valid = false ∧ resp.JSONGenerated = false := by
  obtain ⟨t, ht⟩ := runValidator_mono ft env (st ft) key
  have h2 : hasRejections (runValidator ft env (st ft) key).1 = true := by
    rw [ht, hasRejections_append, hrej]
    rfl
  refine ⟨⟨false, (runValidator ft env (st ft) key).1.map ValidationResult.to_dict,
    false, Option.none⟩,
    fun x => if x = ft then (runValidator ft env (st ft) key).1 else st x, ?_, rfl, rfl⟩
  have hmem : ft ∈ supportedTypes := by simpa using hft
  simp [RIPSProcessor.process, hmem, h2]

/-- A processor state whose AF ledger already carries a Rejection. -/
def stSeeded : PState := fun _ => [rejection "ERR_AF_001" "seeded rejection" ""]

theorem rejection_ledger_sticky_witness :
    ∃ resp st', RIPSProcessor.process env0 stSeeded "AF" "K" = Except.ok (resp, st')
      ∧ resp.Valid = false ∧ resp.JSONGenerated = false :=
  rejection_ledger_sticky env0 stSeeded "AF" "K" (by decide) (by decide)

/-- C5: for every supported record type, a zero-row keyed fetch makes the
validator append exactly one outcome — the type-specific "not found"
REJECTION — and return (false, empty), and the process response carries
valid=false and exported=false. -/
theorem zero_row_fetch_single_rejection (ft : String) (env : Env) (st : PState) (key : String)
    (hft : supportedTypes.contains ft = true)
    (hfetch : env.fetch (tableOf ft) key = Except.ok []) :
    runValidator ft env (st ft) key = (st ft ++ [notFoundOutcome ft key], false, [])
    ∧ (notFoundOutcome ft key).result_type = ValidationResultType.REJECTION
    ∧ RIPSProcessor.process env st ft key
        = Except.ok (⟨false, (st ft ++ [notFoundOutcome ft key]).map ValidationResult.to_dict,
            false, Option.none⟩,
            fun x => if x = ft then st ft ++ [notFoundOutcome ft key] else st x) := by
  have hmem : ft ∈ supportedTypes := by simpa using hft
  simp only [supportedTypes, List.mem_cons, List.not_mem_nil, or_false] at hmem
  rcases hmem with h | h | h | h | h | h | h | h | h
  · subst h
    have hf : env.fetch "Transacciones" key = Except.ok [] := hfetch
    have h1 : runValidator "AF" env (st "AF") key
        = (st "AF" ++ [notFoundOutcome "AF" key], false, []) := by
      simp [runValidator, TransaccionesValidator.validate, hf, notFoundOutcome]
    exact ⟨h1, rfl, process_of_invalid env st "AF" key _ _ hft h1⟩
  · subst h
    have hf : env.fetch "Usuarios" key = Except.ok [] := hfetch
    have h1 : runValidator "US" env (st "US") key
        = (st "US" ++ [notFoundOutcome "US" key], false, []) := by
      simp [runValidator, UsuariosValidator.validate, hf, notFoundOutcome]
    exact ⟨h1, rfl, process_of_invalid env st "US" key _ _ hft h1⟩
  · subst h
    have hf : env.fetch "Consultas" key = Except.ok [] := hfetch
    have h1 : runValidator "AC" env (st "AC") key
        = (st "AC" ++ [notFoundOutcome "AC" key], false, []) := by
      simp [runValidator, ConsultasValidator.validate, hf, notFoundOutcome]
    exact ⟨h1, rfl, process_of_invalid env st "AC" key _ _ hft h1⟩
  · subst h
    have hf : env.fetch "Procedimientos" key = Except.ok [] := hfetch
    have h1 : runValidator "AP" env (st "AP") key
        = (st "AP" ++ [notFoundOutcome "AP" key], false, []) := by
      simp [runValidator, ProcedimientosValidator.validate, hf, notFoundOutcome]
    exact ⟨h1, rfl, process_of_invalid env st "AP" key _ _ hft h1⟩
  · subst h
    have hf : env.fetch "Urgencias" key = Except.ok [] := hfetch
    have h1 : runValidator "AU" env (st "AU") key
        = (st "AU" ++ [notFoundOutcome "AU" key], false, []) := by
      simp [runValidator, UrgenciasValidator.validate, hf, notFoundOutcome]
    exact ⟨h1, rfl, process_of_invalid env st "AU" key _ _ hft h1⟩
  · subst h
    have hf : env.fetch "Hospitalización" key = Except.ok [] := hfetch
    have h1 : runValidator "AH" env (st "AH") key
        = (st "AH" ++ [notFoundOutcome "AH" key], false, []) := by
      simp [runValidator, HospitalizacionValidator.validate, hf, notFoundOutcome]
    exact ⟨h1, rfl, process_of_invalid env st "AH" key _ _ hft h1⟩
  · subst h
    have hf : env.fetch "Recién_Nacido" key = Except.ok [] := hfetch
    have h1 : runValidator "AN" env (st "AN") key
        = (st "AN" ++ [notFoundOutcome "AN" key], false, []) := by
      simp [runValidator, RecienNacidoValidator.validate, hf, notFoundOutcome]
    exact ⟨h1, rfl, process_of_invalid env st "AN" key _ _ hft h1⟩
  · subst h
    have hf : env.fetch "Medicamentos" key = Except.ok [] := hfetch
    have h1 : runValidator "AM" env (st "AM") key
        = (st "AM" ++ [notFoundOutcome "AM" key], false, []) := by
      simp [runValidator, MedicamentosValidator.validate, hf, notFoundOutcome]
    exact ⟨h1, rfl, process_of_invalid env st "AM" key _ _ hft h1⟩
  · subst h
    have hf : env.fetch "Otros_Servicios" key = Except.ok [] := hfetch
    have h1 : runValidator "AT" env (st "AT") key
        = (st "AT" ++ [notFoundOutcome "AT" key], false, []) := by
      simp [runValidator, OtrosServiciosValidator.validate, hf, notFoundOutcome]
    exact ⟨h1, rfl, process_of_invalid env st "AT" key _ _ hft h1⟩

theorem zero_row_fetch_single_rejection_witness :
    runValidator "AF" env0 (initialState "AF") "X"
      = (initialState "AF" ++ [notFoundOutcome "AF" "X"], false, [])
    ∧ (notFoundOutcome "AF" "X").result_type = ValidationResultType.REJECTION
    ∧ RIPSProcessor.process env0 initialState "AF" "X"
        = Except.ok (⟨false,
            (initialState "AF" ++ [notFoundOutcome "AF" "X"]).map ValidationResult.to_dict,
            false, Option.none⟩,
            fun x => if x = "AF" then initialState "AF" ++ [notFoundOutcome "AF" "X"]
              else initialState x) :=
  zero_row_fetch_single_rejection "AF" env0 initialState "X" (by decide) rfl

/-- C1 (amended): a catalog-membership check appends only NOTIFICATION
outcomes — on a miss it appends exactly one NOTIFICATION and no Rejection —
but it also returns false, which the validators AND into their verdict; hence
the miss can force invalidity even though the ledger gains no Rejection. -/
theorem validate_code_appends_only_notification (results : Ledger) (v : PyVal) (f c : String) :
    (validate_code results v f c = (results, true)
      ∧ ¬(truthy v = true ∧ pyvalInList v (catalogs c) = false))
    ∨ (validate_code results v f c = (results ++ [catalogMiss v f c], false)
      ∧ (catalogMiss v f c).result_type = ValidationResultType.NOTIFICATION
      ∧ truthy v = true ∧ pyvalInList v (catalogs c) = false) := by
  unfold validate_code
  by_cases h : (truthy v && !(pyvalInList v (catalogs c))) = true
  · right
    rw [if_pos h]
    simp only [Bool.and_eq_true, Bool.not_eq_true'] at h
    exact ⟨rfl, rfl, h.1, h.2⟩
  · left
    rw [if_neg h]
    refine ⟨rfl, ?_⟩
    rintro ⟨h1, h2⟩
    exact h (by simp [h1, h2])

/-- A beneficiary row whose document-type code "XX" passes every field check
but misses the TIPO_DOCUMENTO catalog. -/
def recC1 : Record := fun f =>
  if f = "tipoDocumentoIdentificacion" then PyVal.str "XX"
  else if f = "numDocumentoIdentificacion" then PyVal.str "12345"
  else if f = "codPaisOrigen" then PyVal.str "CO"
  else PyVal.str "X"

/-- Storage holding only that beneficiary row. -/
def envC1 : Env := ⟨fun t _ => if t = "Usuarios" then Except.ok [recC1] else Except.ok [],
  fun _ => Except.ok 1, fun _ _ => Except.ok ()⟩

/-- C1 (counterexample): a process call whose entire outcome ledger is one
NOTIFICATION (the TIPO_DOCUMENTO catalog miss) and no Rejection still returns
valid=false — the catalog miss forced the validator's boolean to false. -/
theorem notification_only_ledger_invalid_example :
    ∃ st', RIPSProcessor.process envC1 initialState "US" "U1"
      = Except.ok (⟨false,
          [⟨"NOTIFICACION", "WARN_tipoDocumentoIdentificacion_001",
            "El código XX en tipoDocumentoIdentificacion no está en el catálogo TIPO_DOCUMENTO",
            Option.some "tipoDocumentoIdentificacion", "RIPS"⟩], false, Option.none⟩, st') :=
  ⟨_, rfl⟩

/-- C2 (failing input): validating (AF, "X") twice on a database with no such
transaction — the first response carries the single ERR_AF_001 outcome, but
the second response carries it twice, because the validator's ledger is never
cleared between process calls. -/
theorem process_twice_accumulates_outcomes :
    ∃ st1 st2,
      RIPSProcessor.process env0 initialState "AF" "X"
        = Except.ok (⟨false,
            [⟨"RECHAZO", "ERR_AF_001", "No se encontró transacción con consecutivo X",
              Option.some "", "RIPS"⟩], false, Option.none⟩, st1)
      ∧ RIPSProcessor.process env0 st1 "AF" "X"
        = Except.ok (⟨false,
            [⟨"RECHAZO", "ERR_AF_001", "No se encontró transacción con consecutivo X",
              Option.some "", "RIPS"⟩,
             ⟨"RECHAZO", "ERR_AF_001", "No se encontró transacción con consecutivo X",
              Option.some "", "RIPS"⟩], false, Option.none⟩, st2) :=
  ⟨_, _, rfl, rfl⟩

/-- A beneficiary row that passes every check. -/
def recC4 : Record := fun f =>
  if f = "tipoDocumentoIdentificacion" then PyVal.str "CC"
  else if f = "numDocumentoIdentificacion" then PyVal.str "12345"
  else if f = "codPaisOrigen" then PyVal.str "CO"
  else PyVal.str "X"

/-- Storage holding that valid row, with a failing export writer. -/
def envC4 : Env := ⟨fun t _ => if t = "Usuarios" then Except.ok [recC4] else Except.ok [],
  fun _ => Except.ok 1, fun _ _ => Except.error "disk full"⟩

/-- C4 (counterexample): with a fully valid record, a failure while writing
the export file escapes process as a raised error — no ValidationResponse is
produced, refuting "the engine's public process operation never raises". -/
theorem process_raises_on_export_write_failure :
    RIPSProcessor.process envC4 initialState "US" "U1" = Except.error "disk full" :=
  rfl

/-- C4 (amended): process never raises as long as the export write succeeds —
every storage-layer failure during fetch or cross-reference is recovered into
a well-formed response — and a failed fetch is converted into the
type-specific query-error Rejection, short-circuiting with (false, empty). -/
theorem process_total_except_export_write :
    (∀ (env : Env) (st : PState) (ft key : String),
        (∀ f recs, env.writeFile f recs = Except.ok ()) →
        ∃ out, RIPSProcessor.process env st ft key = Except.ok out)
    ∧ (∀ (env : Env) (results : Ledger) (key e : String),
        env.fetch "Transacciones" key = Except.error e →
        TransaccionesValidator.validate env results key
          = (results ++ [rejection "ERR_AF_002" ("Error en la consulta: " ++ e) ""], false, [])) := by
  constructor
  · intro env st ft key hw
    by_cases hmem : ft ∈ supportedTypes
    · simp only [RIPSProcessor.process]
      rw [if_pos (show supportedTypes.contains ft = true by simpa using hmem)]
      by_cases hv : ((runValidator ft env (st ft) key).2.1
          && !(hasRejections (runValidator ft env (st ft) key).1)) = true
      · rw [if_pos hv]
        rw [hw ("rips_" ++ ft ++ "_" ++ key ++ ".json") (runValidator ft env (st ft) key).2.2]
        exact ⟨_, rfl⟩
      · rw [if_neg hv]
        exact ⟨_, rfl⟩
    · simp only [RIPSProcessor.process]
      rw [if_neg (show ¬ supportedTypes.contains ft = true by simpa using hmem)]
      exact ⟨_, rfl⟩
  · intro env results key e hfe
    unfold TransaccionesValidator.validate
    rw [hfe]

theorem process_total_except_export_write_witness :
    (∃ out, RIPSProcessor.process env0 initialState "AF" "X" = Except.ok out)
    ∧ TransaccionesValidator.validate envErr [] "X"
        = ([rejection "ERR_AF_002" "Error en la consulta: boom" ""], false, []) :=
  ⟨process_total_except_export_write.1 env0 initialState "AF" "X" (fun _ _ => rfl),
   process_total_except_export_write.2 envErr [] "X" "boom" rfl⟩

/-- Running a check sequence through one check that always appends a given
outcome and fails makes the whole sequence contain that outcome and fold to
false. -/
lemma runChecks_through (cs1 cs2 : List Check) (c : Check) (results : Ledger) (valid : Bool)
    (hm1 : ∀ c' ∈ cs1, MonoCheck c') (hm2 : ∀ c' ∈ cs2, MonoCheck c')
    (e : ValidationResult)
    (hc : ∀ r, ∃ x, (c r).1 = r ++ x ∧ e ∈ x ∧ (c r).2 = false) :
    (∃ x, (runChecks results valid (cs1 ++ c :: cs2)).1 = results ++ x ∧ e ∈ x)
    ∧ (runChecks results valid (cs1 ++ c :: cs2)).2 = false := by
  rw [runChecks_append]
  obtain ⟨t1, ht1⟩ := runChecks_mono cs1 hm1 results valid
  obtain ⟨x0, hx0, hex, hcf⟩ := hc (runChecks results valid cs1).1
  constructor
  · obtain ⟨t2, ht2⟩ := runChecks_mono cs2 hm2
      (c (runChecks results valid cs1).1).1
      ((runChecks results valid cs1).2 && (c (runChecks results valid cs1).1).2)
    refine ⟨t1 ++ x0 ++ t2, ?_, ?_⟩
    · simp only [runChecks]
      rw [ht2, hx0, ht1]
      simp [List.append_assoc]
    · exact List.mem_append_left _ (List.mem_append_right _ hex)
  · simp only [runChecks]
    rw [hcf, Bool.and_false]
    exact runChecks_false cs2 _

/-- The trailing cross-reference preserves any ledger member and a false
verdict. -/
lemma finish_preserves (env : Env) (df : List Record) (record : Record) (e c : String)
    (p : Ledger × Bool) (hp2 : p.2 = false) (x : ValidationResult) (hx : x ∈ p.1) :
    x ∈ (finishWithCrossRef env df record e c p).1
    ∧ (finishWithCrossRef env df record e c p).2.1 = false := by
  obtain ⟨t, ht⟩ := finishWithCrossRef_mono env df record e c p
  constructor
  · rw [ht]
    exact List.mem_append_left _ hx
  · unfold finishWithCrossRef
    rcases env.countUsuarios (record "numDocumentoIdentificacion") with err | n
    · rfl
    · dsimp only
      split
      · rfl
      · exact hp2

/-- A non-designated CUPS code with conceptoRecaudo "01" makes the guarded
CUPS check append the catalog-miss NOTIFICATION followed by the ERR_AC_002
REJECTION and fail. -/
lemma consultaCupsCheck_miss (record : Record) (r : Ledger)
    (hcod : truthy (record "codConsulta") = true)
    (hcr : record "conceptoRecaudo" = PyVal.str "01")
    (hnl : pyvalInList (record "codConsulta") ["890501", "890601"] = false) :
    consultaCupsCheck record r
      = (r ++ [catalogMiss (record "codConsulta") "codConsulta" "CUPS",
          rejection "ERR_AC_002" "Copago no permitido para este CUPS" "conceptoRecaudo"], false) := by
  have hq : validate_code r (record "codConsulta") "codConsulta" "CUPS"
      = (r ++ [catalogMiss (record "codConsulta") "codConsulta" "CUPS"], false) := by
    unfold validate_code
    rw [if_pos (by rw [show catalogs "CUPS" = ["890501", "890601"] from rfl, hnl, hcod]; rfl)]
  have hcopay : copayCheck (r ++ [catalogMiss (record "codConsulta") "codConsulta" "CUPS"])
      (record "codConsulta") (record "conceptoRecaudo")
      = ((r ++ [catalogMiss (record "codConsulta") "codConsulta" "CUPS"])
          ++ [rejection "ERR_AC_002" "Copago no permitido para este CUPS" "conceptoRecaudo"], false) := by
    unfold copayCheck
    rw [if_neg (by simp [hnl])]
    rw [if_pos (by simp [hnl, hcr])]
  unfold consultaCupsCheck
  rw [if_pos hcod]
  simp only [hq, hcopay]
  simp

/-- C6: for every consultation record with a truthy service code — if
conceptoRecaudo is "01" and the code is not one of the two designated CUPS
codes, the validate call's ledger gains the ERR_AC_002 REJECTION and the
returned boolean is false; if the code is one of the designated two with
conceptoRecaudo "01", the copay rule appends exactly the INFO_AC_001
NOTIFICATION and no Rejection. -/
theorem consulta_copay_rule :
    (∀ (env : Env) (st : Ledger) (key : String) (record : Record) (rest : List Record),
        env.fetch "Consultas" key = Except.ok (record :: rest) →
        truthy (record "codConsulta") = true →
        record "conceptoRecaudo" = PyVal.str "01" →
        pyvalInList (record "codConsulta") ["890501", "890601"] = false →
        (∃ r ∈ (ConsultasValidator.validate env st key).1,
            r.code = "ERR_AC_002" ∧ r.result_type = ValidationResultType.REJECTION)
        ∧ (ConsultasValidator.validate env st key).2.1 = false)
    ∧ (∀ (res : Ledger) (cod cr : PyVal),
        pyvalInList cod ["890501", "890601"] = true → cr = PyVal.str "01" →
        copayCheck res cod cr
          = (res ++ [notification "INFO_AC_001" "Copago permitido para CUPS 8905/8906"
              "conceptoRecaudo"], true)
        ∧ (notification "INFO_AC_001" "Copago permitido para CUPS 8905/8906"
            "conceptoRecaudo").result_type = ValidationResultType.NOTIFICATION) := by
  constructor
  · intro env st key record rest hfetch hcod hcr hnl
    have hred : ConsultasValidator.validate env st key
        = finishWithCrossRef env (record :: rest) record "ERR_AC_003" "ERR_AC_004"
            (runChecks st true ((ConsultasValidator.checks record).take 6
              ++ consultaCupsCheck record :: (ConsultasValidator.checks record).drop 7)) := by
      unfold ConsultasValidator.validate
      rw [hfetch]
      rfl
    have hrc := runChecks_through ((ConsultasValidator.checks record).take 6)
        ((ConsultasValidator.checks record).drop 7) (consultaCupsCheck record) st true
        (fun c' h' => ac_checks_mono record c' (List.take_subset _ _ h'))
        (fun c' h' => ac_checks_mono record c' (List.drop_subset _ _ h'))
        (rejection "ERR_AC_002" "Copago no permitido para este CUPS" "conceptoRecaudo")
        (fun r => ⟨[catalogMiss (record "codConsulta") "codConsulta" "CUPS",
            rejection "ERR_AC_002" "Copago no permitido para este CUPS" "conceptoRecaudo"],
          by rw [consultaCupsCheck_miss record r hcod hcr hnl],
          by simp,
          by rw [consultaCupsCheck_miss record r hcod hcr hnl]⟩)
    obtain ⟨⟨x, hx, hex⟩, hfalse2⟩ := hrc
    have hfin := finish_preserves env (record :: rest) record "ERR_AC_003" "ERR_AC_004"
        (runChecks st true ((ConsultasValidator.checks record).take 6
          ++ consultaCupsCheck record :: (ConsultasValidator.checks record).drop 7))
        hfalse2
        (rejection "ERR_AC_002" "Copago no permitido para este CUPS" "conceptoRecaudo")
        (by rw [hx]; exact List.mem_append_right _ hex)
    constructor
    · exact ⟨rejection "ERR_AC_002" "Copago no permitido para este CUPS" "conceptoRecaudo",
        by rw [hred]; exact hfin.1, rfl, rfl⟩
    · rw [hred]
      exact hfin.2
  · intro res cod cr hin hcr
    constructor
    · unfold copayCheck
      rw [if_pos (by simp [hin, hcr])]
    · rfl

/-- A consultation row with a non-designated service code and copay "01". -/
def recC6 : Record := fun f =>
  if f = "codConsulta" then PyVal.str "999999"
  else if f = "conceptoRecaudo" then PyVal.str "01"
  else PyVal.str "X"

/-- Storage holding only that consultation row. -/
def envC6 : Env := ⟨fun t _ => if t = "Consultas" then Except.ok [recC6] else Except.ok [],
  fun _ => Except.ok 1, fun _ _ => Except.ok ()⟩

theorem consulta_copay_rule_witness :
    ((∃ r ∈ (ConsultasValidator.validate envC6 [] "K").1,
        r.code = "ERR_AC_002" ∧ r.result_type = ValidationResultType.REJECTION)
      ∧ (ConsultasValidator.validate envC6 [] "K").2.1 = false)
    ∧ copayCheck [] (PyVal.str "890501") (PyVal.str "01")
        = ([notification "INFO_AC_001" "Copago permitido para CUPS 8905/8906"
            "conceptoRecaudo"], true) :=
  ⟨consulta_copay_rule.1 envC6 [] "K" recC6 [] rfl rfl rfl rfl,
   (consulta_copay_rule.2 [] (PyVal.str "890501") (PyVal.str "01") (by decide) rfl).1⟩

/-- C7 (amended): the RequiredString checks run in the fixed order required,
too-long, pattern, the first failure short-circuits (at most one outcome per
call), and the required check tests the stripped value; but the pattern check
is applied to the unstripped str(value), not the stripped one. -/
theorem validate_string_check_order (results : Ledger) (v : PyVal) (f : String) (m : Nat)
    (req : Bool) (g : Option (String → Bool)) :
    (∃ t, (validate_string results v f m req g).1 = results ++ t ∧ t.length ≤ 1)
    ∧ ((req && (isNone v || decide (pyStrip (pyStr v) = ""))) = true →
        validate_string results v f m req g
          = (results ++ [rejection ("ERR_" ++ f ++ "_001")
              ("El campo " ++ f ++ " es obligatorio") f], false))
    ∧ ((req && (isNone v || decide (pyStrip (pyStr v) = ""))) = false →
        truthy v = true → (pyStr v).length > m →
        validate_string results v f m req g
          = (results ++ [rejection ("ERR_" ++ f ++ "_002")
              ("El campo " ++ f ++ " excede el tamaño máximo de " ++ toString m) f], false))
    ∧ (∀ mf, g = Option.some mf →
        (req && (isNone v || decide (pyStrip (pyStr v) = ""))) = false →
        truthy v = true → (pyStr v).length ≤ m →
        (validate_string results v f m req g).2 = mf (pyStr v)) := by
  refine ⟨?_, ?_, ?_, ?_⟩
  · unfold validate_string
    split
    · exact ⟨_, rfl, by simp⟩
    split
    · exact ⟨_, rfl, by simp⟩
    split
    · exact ⟨_, rfl, by simp⟩
    · exact ⟨[], by simp, by simp⟩
  · intro h1
    unfold validate_string
    rw [if_pos h1]
  · intro h1 h2 h3
    unfold validate_string
    rw [if_neg (by simp [h1])]
    rw [if_pos (by simp [h2, h3])]
  · intro mf hg h1 h2 h3
    subst hg
    have hlen : decide ((pyStr v).length > m) = false := by
      simp only [decide_eq_false_iff_not, gt_iff_lt, not_lt]
      exact h3
    unfold validate_string
    rw [if_neg (by simp [h1])]
    rw [if_neg (by simp [hlen])]
    by_cases hm : mf (pyStr v) = true
    · rw [if_neg (by simp [hm])]
      simp [hm]
    · have hm' : mf (pyStr v) = false := by
        cases hmm : mf (pyStr v)
        · rfl
        · exact absurd hmm hm
      rw [if_pos (by simp [h2, hm'])]
      simp [hm']

/-- The match-at-start test of the pattern used in the C7 scenario: a regex
matching exactly "abc". -/
def mfC7 : String → Bool := fun s => decide (s = "abc")

/-- C7 (counterexample): for the value " abc" and a pattern matching "abc",
the stripped value matches the pattern, yet RequiredString appends the
pattern-mismatch Rejection and fails — the pattern runs on the unstripped
string, refuting "the pattern check is applied to the trimmed value". -/
theorem validate_string_pattern_untrimmed_example :
    (validate_string [] (PyVal.str " abc") "X" 10 true (Option.some mfC7)).2 = false
    ∧ mfC7 (pyStrip (pyStr (PyVal.str " abc"))) = true :=
  ⟨rfl, rfl⟩

theorem validate_string_check_order_witness :
    (validate_string [] (PyVal.str "abcd") "X" 10 true (Option.some mfC7)).2
      = mfC7 (pyStr (PyVal.str "abcd")) :=
  (validate_string_check_order [] (PyVal.str "abcd") "X" 10 true (Option.some mfC7)).2.2.2
    mfC7 rfl (by decide) (by decide) (by decide)

/-- A failing date parse makes validate_date append the format REJECTION. -/
lemma validate_date_format_fail (r : Ledger) (v : PyVal) (f : String)
    (hv : truthy v = true) (hs : decide (pyStrip (pyStr v) = "") = false)
    (hp : parseDateTime (pyStr v) = Option.none) :
    validate_date r v f true
      = (r ++ [rejection ("ERR_" ++ f ++ "_004")
          ("El campo " ++ f ++ " no tiene un formato de fecha válido") f], false) := by
  have hnone : isNone v = false := by
    cases v <;> simp_all [truthy, isNone]
  unfold validate_date
  rw [if_neg (by simp [hnone, hs])]
  rw [if_pos (by rw [hv, hp]; rfl)]

/-- C9: for every hospitalization record whose two dates are truthy and
strip-nonempty but at least one fails to parse, the validate call ends with
the ERR_AH_004 storage-error REJECTION appended after a date-format REJECTION
and returns (false, empty) — the unguarded cross-field re-parse raises and the
catch-all absorbs it, dropping the fetched record. -/
theorem hospitalizacion_unparsed_dates_absorbed (env : Env) (st : Ledger) (key : String)
    (record : Record) (rest : List Record)
    (hfetch : env.fetch "Hospitalización" key = Except.ok (record :: rest))
    (hi : truthy (record "fechaIngreso") = true)
    (he : truthy (record "fechaEgreso") = true)
    (hsi : decide (pyStrip (pyStr (record "fechaIngreso")) = "") = false)
    (hse : decide (pyStrip (pyStr (record "fechaEgreso")) = "") = false)
    (hp : parseDateTime (pyStr (record "fechaIngreso")) = Option.none
        ∨ parseDateTime (pyStr (record "fechaEgreso")) = Option.none) :
    ∃ mid msg, HospitalizacionValidator.validate env st key
        = (st ++ mid ++ [rejection "ERR_AH_004" ("Error en la consulta: " ++ msg) ""], false, [])
      ∧ ∃ r ∈ mid, (r.code = "ERR_fechaIngreso_004" ∨ r.code = "ERR_fechaEgreso_004")
          ∧ r.result_type = ValidationResultType.REJECTION := by
  rcases hpi : parseDateTime (pyStr (record "fechaIngreso")) with _ | fi
  · have hb : HospitalizacionValidator.validate env st key
        = ((runChecks st true ((HospitalizacionValidator.checks record).take 2
            ++ (fun r => validate_date r (record "fechaIngreso") "fechaIngreso" true)
              :: (HospitalizacionValidator.checks record).drop 3)).1
            ++ [rejection "ERR_AH_004"
              ("Error en la consulta: " ++ strptimeErr (pyStr (record "fechaIngreso"))) ""],
           false, []) := by
      unfold HospitalizacionValidator.validate
      rw [hfetch]
      dsimp only
      rw [if_pos (by rw [hi, he]; rfl)]
      rw [hpi]
      rfl
    have hrc := runChecks_through ((HospitalizacionValidator.checks record).take 2)
        ((HospitalizacionValidator.checks record).drop 3)
        (fun r => validate_date r (record "fechaIngreso") "fechaIngreso" true) st true
        (fun c' h' => ah_checks_mono record c' (List.take_subset _ _ h'))
        (fun c' h' => ah_checks_mono record c' (List.drop_subset _ _ h'))
        (rejection ("ERR_" ++ "fechaIngreso" ++ "_004")
          ("El campo " ++ "fechaIngreso" ++ " no tiene un formato de fecha válido") "fechaIngreso")
        (fun r => ⟨[rejection ("ERR_" ++ "fechaIngreso" ++ "_004")
            ("El campo " ++ "fechaIngreso" ++ " no tiene un formato de fecha válido") "fechaIngreso"],
          by dsimp only; rw [validate_date_format_fail r (record "fechaIngreso") "fechaIngreso" hi hsi hpi],
          by simp,
          by dsimp only; rw [validate_date_format_fail r (record "fechaIngreso") "fechaIngreso" hi hsi hpi]⟩)
    obtain ⟨⟨x, hx, hex⟩, _⟩ := hrc
    refine ⟨x, strptimeErr (pyStr (record "fechaIngreso")), ?_, ?_⟩
    · rw [hb, hx]
    · exact ⟨_, hex, Or.inl rfl, rfl⟩
  · have hpe : parseDateTime (pyStr (record "fechaEgreso")) = Option.none := by
      rcases hp with h | h
      · rw [hpi] at h
        exact absurd h (by simp)
      · exact h
    have hb : HospitalizacionValidator.validate env st key
        = ((runChecks st true ((HospitalizacionValidator.checks record).take 4
            ++ (fun r => validate_date r (record "fechaEgreso") "fechaEgreso" true)
              :: (HospitalizacionValidator.checks record).drop 5)).1
            ++ [rejection "ERR_AH_004"
              ("Error en la consulta: " ++ strptimeErr (pyStr (record "fechaEgreso"))) ""],
           false, []) := by
      unfold HospitalizacionValidator.validate
      rw [hfetch]
      dsimp only
      rw [if_pos (by rw [hi, he]; rfl)]
      rw [hpi]
      dsimp only
      rw [hpe]
      rfl
    have hrc := runChecks_through ((HospitalizacionValidator.checks record).take 4)
        ((HospitalizacionValidator.checks record).drop 5)
        (fun r => validate_date r (record "fechaEgreso") "fechaEgreso" true) st true
        (fun c' h' => ah_checks_mono record c' (List.take_subset _ _ h'))
        (fun c' h' => ah_checks_mono record c' (List.drop_subset _ _ h'))
        (rejection ("ERR_" ++ "fechaEgreso" ++ "_004")
          ("El campo " ++ "fechaEgreso" ++ " no tiene un formato de fecha válido") "fechaEgreso")
        (fun r => ⟨[rejection ("ERR_" ++ "fechaEgreso" ++ "_004")
            ("El campo " ++ "fechaEgreso" ++ " no tiene un formato de fecha válido") "fechaEgreso"],
          by dsimp only; rw [validate_date_format_fail r (record "fechaEgreso") "fechaEgreso" he hse hpe],
          by simp,
          by dsimp only; rw [validate_date_format_fail r (record "fechaEgreso") "fechaEgreso" he hse hpe]⟩)
    obtain ⟨⟨x, hx, hex⟩, _⟩ := hrc
    refine ⟨x, strptimeErr (pyStr (record "fechaEgreso")), ?_, ?_⟩
    · rw [hb, hx]
    · exact ⟨_, hex, Or.inr rfl, rfl⟩

/-- A hospitalization row with a parseable admission date and an unparseable
discharge date. -/
def recC9 : Record := fun f =>
  if f = "fechaIngreso" then PyVal.str "2024-01-10 08:00:00"
  else if f = "fechaEgreso" then PyVal.str "not-a-date"
  else PyVal.str "X"

/-- Storage holding only that hospitalization row. -/
def envC9 : Env := ⟨fun t _ => if t = "Hospitalización" then Except.ok [recC9] else Except.ok [],
  fun _ => Except.ok 1, fun _ _ => Except.ok ()⟩

theorem hospitalizacion_unparsed_dates_absorbed_witness :
    ∃ mid msg, HospitalizacionValidator.validate envC9 [] "K"
        = ([] ++ mid ++ [rejection "ERR_AH_004" ("Error en la consulta: " ++ msg) ""], false, [])
      ∧ ∃ r ∈ mid, (r.code = "ERR_fechaIngreso_004" ∨ r.code = "ERR_fechaEgreso_004")
          ∧ r.result_type = ValidationResultType.REJECTION :=
  hospitalizacion_unparsed_dates_absorbed envC9 [] "K" recC9 [] rfl rfl rfl rfl rfl
    (Or.inr rfl)

theorem validate_code_appends_only_notification_witness :
    (validate_code [] (PyVal.str "XX") "tipoDocumentoIdentificacion" "TIPO_DOCUMENTO"
        = ([], true)
      ∧ ¬(truthy (PyVal.str "XX") = true
          ∧ pyvalInList (PyVal.str "XX") (catalogs "TIPO_DOCUMENTO") = false))
    ∨ (validate_code [] (PyVal.str "XX") "tipoDocumentoIdentificacion" "TIPO_DOCUMENTO"
        = ([] ++ [catalogMiss (PyVal.str "XX") "tipoDocumentoIdentificacion" "TIPO_DOCUMENTO"], false)
      ∧ (catalogMiss (PyVal.str "XX") "tipoDocumentoIdentificacion" "TIPO_DOCUMENTO").result_type
          = ValidationResultType.NOTIFICATION
      ∧ truthy (PyVal.str "XX") = true
      ∧ pyvalInList (PyVal.str "XX") (catalogs "TIPO_DOCUMENTO") = false) :=
  validate_code_appends_only_notification [] (PyVal.str "XX")
    "tipoDocumentoIdentificacion" "TIPO_DOCUMENTO"
